import Mathlib

/-
Verification development for the sermon-helper command bridges:

* `broadlink_bridge.py`  — one-shot CLI bridge to Broadlink IR/RF devices
  (commands: discover, learn, send, test);
* `impress_controller.py` — persistent stdin/stdout bridge driving LibreOffice
  Impress over a UNO socket (commands: open, get_status, ...).

Shallow embedding: every effectful library call (device protocol call, UNO
call, process spawn) is modelled by an explicit behaviour record passed to the
handler, and each handler is a pure function from that behaviour to its
observable outcome — the emitted JSON response, the ordered trace of calls it
makes, and the process exit code where the script exits.
-/

namespace SermonHelper

/-! ### Hex encoding and decoding

`bytes.hex()` (used by `learn` to emit the captured payload) and
`bytes.fromhex` (used by `send` to decode the code argument).  Bytes are
modelled as `Nat` values below 256. -/

/-- Hex digit character for a value below 16, lowercase, as produced by
Python's `bytes.hex()`. -/
def hexDigit (n : Nat) : Char :=
  if n < 10 then Char.ofNat (48 + n) else Char.ofNat (87 + n)

/-- Two lowercase hex digits of one byte, as in `bytes.hex()`. -/
def byteHex (b : Nat) : List Char :=
  [hexDigit (b / 16), hexDigit (b % 16)]

/-- `bytes.hex()`: concatenation of the two-digit encodings of each byte. -/
def hexEncode (bs : List Nat) : List Char :=
  (bs.map byteHex).flatten

/-- Numeric value of a hex digit character, accepting both letter cases, as
`bytes.fromhex` does.  `none` for a non-hex character. -/
def hexDigitVal (c : Char) : Option Nat :=
  let n := c.toNat
  if n ≥ 48 ∧ n ≤ 57 then some (n - 48)
  else if n ≥ 97 ∧ n ≤ 102 then some (n - 87)
  else if n ≥ 65 ∧ n ≤ 70 then some (n - 55)
  else none

/-- Pair up hex digits into bytes; fails on an odd count or a non-hex
character, as `bytes.fromhex` raises `ValueError` there. -/
def hexPairs : List Char → Option (List Nat)
  | [] => some []
  | [_] => none
  | c1 :: c2 :: rest =>
    match hexDigitVal c1, hexDigitVal c2, hexPairs rest with
    | some hi, some lo, some t => some ((16 * hi + lo) :: t)
    | _, _, _ => none

/-- ASCII whitespace, which `bytes.fromhex` skips: space, tab, line feed,
carriage return, vertical tab and form feed. -/
def isHexSpace (c : Char) : Bool :=
  [32, 9, 10, 13, 11, 12].contains c.toNat

/-- `bytes.fromhex`: drop ASCII whitespace, then decode hex digit pairs. -/
def hexDecode (cs : List Char) : Option (List Nat) :=
  hexPairs (cs.filter (fun c => !isHexSpace c))

/-- The decode step of the `send` command: `bytes.fromhex(code)`. -/
def send_decode (code : String) : Option (List Nat) :=
  hexDecode code.data

/-- Membership in the lowercase hex alphabet, the only characters
`bytes.hex()` can produce. -/
def isLowerHex (c : Char) : Bool :=
  let n := c.toNat
  (n ≥ 48 && n ≤ 57) || (n ≥ 97 && n ≤ 102)

/-- `s` is a letter-case variant of the (lowercase) list `t`: same length,
and each character equals the original or its ASCII uppercase form. -/
def caseVariantB : List Char → List Char → Bool
  | [], [] => true
  | c :: cs, d :: ds => (c == d || c == d.toUpper) && caseVariantB cs ds
  | _, _ => false

/-! ### ASCII lowercase folding

`str.lower()` as applied to the `signal_type` argument (`signal_type.lower()
== 'rf'` in `learn`); modelled on the ASCII range. -/

/-- ASCII lowercase of one character. -/
def lowerChar (c : Char) : Char :=
  if 65 ≤ c.toNat ∧ c.toNat ≤ 90 then Char.ofNat (c.toNat + 32) else c

/-- ASCII `str.lower()`. -/
def lowerStr (s : String) : String :=
  String.mk (s.data.map lowerChar)

/-! ### The `learn` command of `broadlink_bridge.py`

The device is modelled by the outcomes of its calls: whether `auth()`
raises, what `check_frequency()` returns on each sweep poll, and what
`check_data()` yields on each capture poll.  The handler produces the ordered
trace of device calls, JSON emissions and the `sys.exit` it performs. -/

/-- Outcome of one `device.check_data()` call: a returned payload (possibly
empty, which Python treats as falsy and keeps polling), one of the two
recognized transient exceptions (`StorageError`, `ReadError`), or any other
exception with its message. -/
inductive PollResult
  | data (payload : List Nat)
  | storageError
  | readError
  | otherError (msg : String)
deriving DecidableEq

/-- The two transient conditions the `except` clause of the poll loop
catches: `broadlink.exceptions.StorageError` and `ReadError`. -/
def isNotReady : PollResult → Bool
  | .storageError => true
  | .readError => true
  | _ => false

/-- Device behaviour for one `learn` invocation. -/
structure DevBehavior where
  auth : Option String
  checkFreq : Nat → Bool
  checkData : Nat → PollResult

/-- One observable step of the `learn` command: a device-protocol call, a
JSON line printed to stdout, or a `sys.exit`. -/
inductive Ev
  | callAuth
  | callSweep
  | callCheckFreq (i : Nat)
  | callCancelSweep
  | callFindRF
  | callEnterLearning
  | callCheckData (i : Nat)
  | emitCode (hex : String)
  | emitError (msg : String)
  | exitProc (n : Nat)
deriving DecidableEq

/-- The `for _ in range(30): ... device.check_frequency()` sweep loop: stops
at the first poll reporting the frequency, or exhausts the fuel.  Returns the
trace of polls and the `found` flag. -/
def freqSeek (cf : Nat → Bool) : Nat → Nat → List Ev × Bool
  | _, 0 => ([], false)
  | i, fuel + 1 =>
    if cf i then ([.callCheckFreq i], true)
    else
      let r := freqSeek cf (i + 1) fuel
      (.callCheckFreq i :: r.1, r.2)

/-- The `for _ in range(30): ... device.check_data()` capture loop, shared
verbatim by the RF-packet wait and the IR learning path.  A truthy payload is
printed as `{"code": data.hex()}` and the command returns; the two recognized
transient exceptions continue the loop; any other exception escapes to the
outer handler which prints the message and exits 1; fuel exhaustion prints
the timeout message and exits 1. -/
def captureEvs (cd : Nat → PollResult) (timeoutMsg : String) : Nat → Nat → List Ev
  | _, 0 => [.emitError timeoutMsg, .exitProc 1]
  | i, fuel + 1 =>
    match cd i with
    | .data p =>
      if p = [] then .callCheckData i :: captureEvs cd timeoutMsg (i + 1) fuel
      else [.callCheckData i, .emitCode (String.mk (hexEncode p))]
    | .storageError => .callCheckData i :: captureEvs cd timeoutMsg (i + 1) fuel
    | .readError => .callCheckData i :: captureEvs cd timeoutMsg (i + 1) fuel
    | .otherError m => [.callCheckData i, .emitError m, .exitProc 1]

/-- The RF branch of `learn`: `sweep_frequency()`, the 30-poll frequency
seek, then — on failure — `print({"error": "No RF frequency found"})`,
`cancel_sweep_frequency()`, `sys.exit(1)`; on success `find_rf_packet()`
followed by the 30-poll capture loop. -/
def learnRF (d : DevBehavior) : List Ev :=
  let fs := freqSeek d.checkFreq 0 30
  Ev.callSweep :: fs.1 ++
    (if fs.2 then
      Ev.callFindRF :: captureEvs d.checkData "RF learning timeout" 0 30
    else
      [Ev.emitError "No RF frequency found", Ev.callCancelSweep, Ev.exitProc 1])

/-- The IR branch of `learn`: `enter_learning()` then the 30-poll capture
loop. -/
def learnIR (cd : Nat → PollResult) : List Ev :=
  Ev.callEnterLearning :: captureEvs cd "IR learning timeout" 0 30

/-- Which capture path `learn` takes: `signal_type.lower() == 'rf'`. -/
inductive SignalPath
  | rf
  | ir
deriving DecidableEq

/-- Branch selection in `learn`. -/
def signalPath (signal_type : String) : SignalPath :=
  if lowerStr signal_type = "rf" then .rf else .ir

/-- The `learn` command after device construction: `auth()` (whose exception
is printed and exits 1), then the RF or IR capture path. -/
def learn (signal_type : String) (d : DevBehavior) : List Ev :=
  match d.auth with
  | some e => [Ev.callAuth, Ev.emitError e, Ev.exitProc 1]
  | none =>
    Ev.callAuth ::
      (match signalPath signal_type with
        | .rf => learnRF d
        | .ir => learnIR d.checkData)

/-- Dispatch of the `learn` arm of `main`: `sys.argv[2:]` must hold at least
host, mac and devtype (`len(sys.argv) < 5` is a usage error), and the signal
class defaults to `"ir"` when absent. -/
inductive LearnArgs
  | usage
  | run (host mac devtype signal_type : String)
deriving DecidableEq

/-- Argument handling of the `learn` arm of `main`. -/
def mainLearnArgs : List String → LearnArgs
  | host :: mac :: devtype :: signal_type :: _ => .run host mac devtype signal_type
  | [host, mac, devtype] => .run host mac devtype "ir"
  | _ => .usage

/-! ### Trace predicates -/

/-- Number of events satisfying `p`. -/
def countIf (p : Ev → Bool) (l : List Ev) : Nat :=
  (l.filter p).length

/-- Number of occurrences of event `e`. -/
def countEv (e : Ev) (l : List Ev) : Nat :=
  countIf (fun x => x == e) l

/-- Some event satisfying `p` occurs strictly before some event satisfying
`q`. -/
def beforeEv (p q : Ev → Bool) : List Ev → Bool
  | [] => false
  | e :: rest => (p e && rest.any q) || beforeEv p q rest

/-- Recognizer for frequency-seek polls. -/
def isCheckFreqEv : Ev → Bool
  | .callCheckFreq _ => true
  | _ => false

/-! ### The `discover` command of `broadlink_bridge.py` -/

/-- One device as returned by `broadlink.discover`, together with whether its
`auth()` call succeeds. -/
structure RawDevice where
  devtype : Nat
  model : Option String
  name : Option String
  host : String
  mac : List Nat
  authOk : Bool

/-- One entry of the JSON array `discover` prints. -/
structure DevEntry where
  typeHex : String
  model : String
  host : String
  mac : String
  name : String
deriving DecidableEq

/-- Python `a or b` on an optional string: `b` when `a` is missing or
falsy (empty). -/
def pyOr (a : Option String) (b : String) : String :=
  match a with
  | none => b
  | some s => if s = "" then b else s

/-- Python `hex(n)` for a nonnegative `n`: `0x` followed by lowercase hex
digits. -/
def pyHex (n : Nat) : String :=
  "0x" ++ String.mk (Nat.toDigits 16 n)

/-- `':'.join(format(x, '02x') for x in device.mac)`. -/
def macStr (mac : List Nat) : String :=
  String.intercalate ":" (mac.map fun b => String.mk (byteHex b))

/-- The JSON record built for one authenticated device. -/
def mkEntry (d : RawDevice) : DevEntry :=
  ⟨pyHex d.devtype, d.model.getD "Unknown", d.host, macStr d.mac,
    pyOr d.name (d.model.getD "Broadlink Device")⟩

/-- The response of `discover`. -/
inductive DiscoverResp
  | ok (devices : List DevEntry)
  | err (error : String)
deriving DecidableEq

/-- The `discover` command: on a discovery failure, print the error and exit
1; otherwise keep exactly the devices whose `auth()` succeeded (the
`except ... continue` drops the rest) and exit 0. -/
def discover (r : Except String (List RawDevice)) : DiscoverResp × Nat :=
  match r with
  | .error e => (.err e, 1)
  | .ok devs =>
    (.ok (devs.filterMap fun d => if d.authOk then some (mkEntry d) else none), 0)

/-! ### The `test` command of `broadlink_bridge.py` -/

/-- Outcome of the `try` block of `test` (device construction plus
`auth()`): success, `socket.timeout`, or any other exception. -/
inductive AuthOutcome
  | ok
  | sockTimeout
  | exc (msg : String)
deriving DecidableEq

/-- The JSON object `test` prints. -/
structure TestResp where
  online : Bool
  error : Option String
deriving DecidableEq

/-- The `test` command with the process exit code: `socket.timeout` is caught
first and prints bare `{"online": false}`; every other exception prints
`{"online": false, "error": str(e)}`; no branch calls `sys.exit`, so the
process exits 0. -/
def test : AuthOutcome → TestResp × Nat
  | .ok => (⟨true, none⟩, 0)
  | .sockTimeout => (⟨false, none⟩, 0)
  | .exc m => (⟨false, some m⟩, 0)

/-! ### The `impress_controller.py` session model

Every UNO call that can raise is an `Except String` value of the behaviour
record; the nesting mirrors `desktop.getCurrentComponent()`,
`doc.getDrawPages().getCount()`, `doc.getPresentation()`,
`presentation.isRunning()`, `presentation.getController()`,
`controller.getCurrentSlideIndex()` and `controller.isPaused()`. -/

/-- The slideshow controller object. -/
structure CtrlO where
  slideIndex : Except String Int
  paused : Except String Bool

/-- The presentation object of the current document. -/
structure PresO where
  running : Except String Bool
  controller : Except String (Option CtrlO)

/-- The current document component. -/
structure DocO where
  pageCount : Except String Nat
  presentation : Except String (Option PresO)

/-- The desktop reached through an obtained UNO context. -/
structure Desk where
  currentComponent : Except String (Option DocO)

/-- `get_presentation(desktop)`: `None` on a missing document or any
exception. -/
def get_presentation (d : Desk) : Option PresO :=
  match d.currentComponent with
  | .error _ => none
  | .ok none => none
  | .ok (some doc) =>
    match doc.presentation with
    | .error _ => none
    | .ok p => p

/-- `get_slideshow_controller(desktop)`: `None` unless a presentation exists,
reports running, and yields a controller; any exception inside is caught. -/
def get_slideshow_controller (d : Desk) : Option CtrlO :=
  match d.currentComponent with
  | .error _ => none
  | .ok none => none
  | .ok (some doc) =>
    match doc.presentation with
    | .error _ => none
    | .ok none => none
    | .ok (some p) =>
      match p.running with
      | .error _ => none
      | .ok false => none
      | .ok true =>
        match p.controller with
        | .error _ => none
        | .ok c => c

/-- The `data` record of a `get_status` response; `none` models JSON
`null`. -/
structure StatusData where
  slideshow_active : Bool
  current_slide : Option Int
  total_slides : Option Nat
  blanked : Bool
deriving DecidableEq

/-- A `get_status` response line. -/
inductive StatusResp
  | success (data : StatusData)
  | failure (error : String)
deriving DecidableEq

/-- `total_slides` as computed by the inner `try/except pass` around
`doc.getDrawPages().getCount()`. -/
def totalOf (doc : DocO) : Option Nat :=
  match doc.pageCount with
  | .ok n => some n
  | .error _ => none

/-- The `get_status` branch of `handle_command`, entered once a UNO context
was obtained.  Only the page-count read sits in an inner `try/except pass`;
`getCurrentComponent`, `isRunning`, `getCurrentSlideIndex` and `isPaused`
raise to the outer handler, which responds `success: false`. -/
def get_status (d : Desk) : StatusResp :=
  match d.currentComponent with
  | .error e => .failure e
  | .ok none => .success ⟨false, none, none, false⟩
  | .ok (some doc) =>
    match get_presentation d with
    | none => .success ⟨false, none, totalOf doc, false⟩
    | some p =>
      match p.running with
      | .error e => .failure e
      | .ok false => .success ⟨false, none, totalOf doc, false⟩
      | .ok true =>
        match get_slideshow_controller d with
        | none => .success ⟨true, none, totalOf doc, false⟩
        | some c =>
          match c.slideIndex with
          | .error e => .failure e
          | .ok idx =>
            match c.paused with
            | .error e => .failure e
            | .ok b => .success ⟨true, some (idx + 1), totalOf doc, b⟩

/-- Whether `get_status d` is a success response. -/
def statusIsSuccess : StatusResp → Bool
  | .success _ => true
  | .failure _ => false

/-- The UNO calls of `get_status` that are not individually guarded all
return instead of raising: `getCurrentComponent`, and — when reached —
`isRunning`, `getCurrentSlideIndex`, `isPaused`. -/
def bareCallsOk (d : Desk) : Bool :=
  match d.currentComponent with
  | .error _ => false
  | .ok none => true
  | .ok (some _) =>
    match get_presentation d with
    | none => true
    | some p =>
      match p.running with
      | .error _ => false
      | .ok false => true
      | .ok true =>
        match get_slideshow_controller d with
        | none => true
        | some c =>
          (match c.slideIndex with
            | .ok _ => true
            | .error _ => false) &&
          (match c.paused with
            | .ok _ => true
            | .error _ => false)

/-! ### The `open` command of `impress_controller.py` -/

/-- The world an `open` command runs against: the filesystem check, whether
the UNO context resolves, whether `subprocess.Popen` succeeds on a given
command line, and the outcome of `loadComponentFromURL`. -/
structure OpenWorld where
  fileExists : String → Bool
  hasUno : Bool
  spawnOk : List String → Bool
  loadResult : Except String Unit

/-- `os.path.exists`: the empty path never exists. -/
def os_path_exists (w : OpenWorld) (p : String) : Bool :=
  (decide (p ≠ "")) && w.fileExists p

/-- The `soffice` command line built by `launch_libreoffice_with_socket`;
the document path is appended when truthy. -/
def launch_cmd (file_path : Option String) : List String :=
  ["soffice", "--impress", "--accept=socket,host=localhost,port=2002;urp;"] ++
    (match file_path with
      | none => []
      | some fp => if fp = "" then [] else [fp])

/-- An observable effect of the `open` handler. -/
inductive OEff
  | checkExists (p : String)
  | resolveSession
  | spawn (cmd : List String)
  | load (url : String)
deriving DecidableEq

/-- A response of the persistent bridge. -/
inductive CmdResp
  | ok
  | fail (error : String)
deriving DecidableEq

/-- The `open` branch of `handle_command`: existence check first, then UNO
resolution; without a context, spawn LibreOffice with the document argument
and report the spawn result alone; with a context, `loadComponentFromURL`. -/
def handle_open (w : OpenWorld) (fp : String) : CmdResp × List OEff :=
  if os_path_exists w fp = false then
    (.fail ("File not found: " ++ fp), [.checkExists fp])
  else if w.hasUno = false then
    let cmd := launch_cmd (some fp)
    if w.spawnOk cmd then
      (.ok, [.checkExists fp, .resolveSession, .spawn cmd])
    else
      (.fail "Failed to launch LibreOffice", [.checkExists fp, .resolveSession, .spawn cmd])
  else
    match w.loadResult with
    | .ok _ => (.ok, [.checkExists fp, .resolveSession, .load ("file://" ++ fp)])
    | .error e => (.fail e, [.checkExists fp, .resolveSession, .load ("file://" ++ fp)])

/-! ### Lemmas about the capture poll loop -/

/-- A poll hitting one of the two recognized transient exceptions adds one
`check_data` call and continues the loop with one unit of fuel spent. -/
lemma captureEvs_notReady (cd : Nat → PollResult) (msg : String) (i fuel : Nat)
    (h : isNotReady (cd i) = true) :
    captureEvs cd msg i (fuel + 1) = Ev.callCheckData i :: captureEvs cd msg (i + 1) fuel := by
  cases hcd : cd i with
  | data p => simp [isNotReady, hcd] at h
  | storageError => simp [captureEvs, hcd]
  | readError => simp [captureEvs, hcd]
  | otherError m => simp [isNotReady, hcd] at h

/-- If the first `k` polls are transient-not-ready and poll `k` returns a
truthy payload, the loop performs exactly `k + 1` polls and emits the payload
as lowercase hex. -/
lemma captureEvs_success : ∀ (k : Nat) (cd : Nat → PollResult) (msg : String)
    (i fuel : Nat) (p : List Nat),
    (∀ j, j < k → isNotReady (cd (i + j)) = true) →
    cd (i + k) = PollResult.data p → p ≠ [] → k < fuel →
    captureEvs cd msg i fuel =
      (List.range' i (k + 1)).map Ev.callCheckData ++
        [Ev.emitCode (String.mk (hexEncode p))] := by
  intro k
  induction k with
  | zero =>
    intro cd msg i fuel p _ hd hp hk
    obtain ⟨f, rfl⟩ : ∃ f, fuel = f + 1 := ⟨fuel - 1, by omega⟩
    rw [Nat.add_zero] at hd
    simp [captureEvs, hd, hp, List.range']
  | succ k ih =>
    intro cd msg i fuel p hnr hd hp hk
    obtain ⟨f, rfl⟩ : ∃ f, fuel = f + 1 := ⟨fuel - 1, by omega⟩
    rw [captureEvs_notReady cd msg i f (by simpa using hnr 0 (by omega))]
    have hnr' : ∀ j, j < k → isNotReady (cd (i + 1 + j)) = true := by
      intro j hj
      have := hnr (j + 1) (by omega)
      rwa [show i + (j + 1) = i + 1 + j by omega] at this
    have hd' : cd (i + 1 + k) = PollResult.data p := by
      rwa [show i + 1 + k = i + (k + 1) by omega]
    rw [ih cd msg (i + 1) f p hnr' hd' hp (by omega)]
    rfl

/-- If every poll in the fuel budget is transient-not-ready, the loop
exhausts the budget and ends in the timeout error and a non-zero exit. -/
lemma captureEvs_timeout : ∀ (fuel : Nat) (cd : Nat → PollResult) (msg : String) (i : Nat),
    (∀ j, j < fuel → isNotReady (cd (i + j)) = true) →
    captureEvs cd msg i fuel =
      (List.range' i fuel).map Ev.callCheckData ++ [Ev.emitError msg, Ev.exitProc 1] := by
  intro fuel
  induction fuel with
  | zero =>
    intro cd msg i _
    simp [captureEvs, List.range']
  | succ f ih =>
    intro cd msg i h
    rw [captureEvs_notReady cd msg i f (by simpa using h 0 (by omega))]
    rw [ih cd msg (i + 1) (by
      intro j hj
      have := h (j + 1) (by omega)
      rwa [show i + (j + 1) = i + 1 + j by omega] at this)]
    rfl

/-- If the first `k` polls are transient-not-ready and poll `k` raises an
unrecognized exception, the loop stops after exactly `k + 1` polls, emits the
exception message verbatim and exits 1. -/
lemma captureEvs_abort : ∀ (k : Nat) (cd : Nat → PollResult) (msg : String)
    (i fuel : Nat) (m : String),
    (∀ j, j < k → isNotReady (cd (i + j)) = true) →
    cd (i + k) = PollResult.otherError m → k < fuel →
    captureEvs cd msg i fuel =
      (List.range' i (k + 1)).map Ev.callCheckData ++ [Ev.emitError m, Ev.exitProc 1] := by
  intro k
  induction k with
  | zero =>
    intro cd msg i fuel m _ hd hk
    obtain ⟨f, rfl⟩ : ∃ f, fuel = f + 1 := ⟨fuel - 1, by omega⟩
    rw [Nat.add_zero] at hd
    simp [captureEvs, hd, List.range']
  | succ k ih =>
    intro cd msg i fuel m hnr hd hk
    obtain ⟨f, rfl⟩ : ∃ f, fuel = f + 1 := ⟨fuel - 1, by omega⟩
    rw [captureEvs_notReady cd msg i f (by simpa using hnr 0 (by omega))]
    have hnr' : ∀ j, j < k → isNotReady (cd (i + 1 + j)) = true := by
      intro j hj
      have := hnr (j + 1) (by omega)
      rwa [show i + (j + 1) = i + 1 + j by omega] at this
    have hd' : cd (i + 1 + k) = PollResult.otherError m := by
      rwa [show i + 1 + k = i + (k + 1) by omega]
    rw [ih cd msg (i + 1) f m hnr' hd' (by omega)]
    rfl

/-- If no sweep poll reports a frequency, the seek performs all its polls
and reports not found. -/
lemma freqSeek_none : ∀ (fuel : Nat) (cf : Nat → Bool) (i : Nat),
    (∀ j, j < fuel → cf (i + j) = false) →
    freqSeek cf i fuel = ((List.range' i fuel).map Ev.callCheckFreq, false) := by
  intro fuel
  induction fuel with
  | zero =>
    intro cf i _
    simp [freqSeek, List.range']
  | succ f ih =>
    intro cf i h
    have h0 : cf i = false := by simpa using h 0 (by omega)
    rw [show freqSeek cf i (f + 1) =
        (Ev.callCheckFreq i :: (freqSeek cf (i + 1) f).1, (freqSeek cf (i + 1) f).2) by
      simp [freqSeek, h0]]
    rw [ih cf (i + 1) (by
      intro j hj
      have := h (j + 1) (by omega)
      rwa [show i + (j + 1) = i + 1 + j by omega] at this)]
    rfl

/-- `signal_type.lower() == 'rf'` holds for the literal `"rf"`. -/
lemma signalPath_rf : signalPath "rf" = SignalPath.rf := by decide

/-! ### Claim C1 — RF frequency-seek timeout and sweep cancellation -/

/-- RF device on which no sweep poll ever finds a frequency and every
capture poll reports storage-not-ready. -/
def d0 : DevBehavior :=
  ⟨none, fun _ => false, fun _ => PollResult.storageError⟩

/-- Claim C1, counterexample to the claimed ordering: with the frequency-seek
budget exhausted (all 30 polls made), the cancel-sweep call is NOT invoked
before the frequency-timeout error response is emitted — the code prints the
error first and cancels afterwards. -/
theorem c1_counterexample :
    countIf isCheckFreqEv (learn "rf" d0) = 30 ∧
    countEv Ev.callCancelSweep (learn "rf" d0) = 1 ∧
    beforeEv (fun e => e == Ev.callCancelSweep)
      (fun e => e == Ev.emitError "No RF frequency found") (learn "rf" d0) = false := by
  decide

/-- Claim C1 (amended): for the learn command with signal-class rf, if the
frequency-seek poll loop exhausts all 30 iterations without the device
reporting a frequency, the frequency-timeout error response is emitted and
then the cancel-sweep operation is invoked exactly once on the session, after
the error response and before the process exits non-zero. -/
theorem c1_rf_cancel_after_timeout_error : ∀ d : DevBehavior, d.auth = none →
    (∀ i, i < 30 → d.checkFreq i = false) →
    learn "rf" d =
      Ev.callAuth :: Ev.callSweep :: (List.range' 0 30).map Ev.callCheckFreq ++
        [Ev.emitError "No RF frequency found", Ev.callCancelSweep, Ev.exitProc 1] ∧
    countEv Ev.callCancelSweep (learn "rf" d) = 1 ∧
    beforeEv (fun e => e == Ev.emitError "No RF frequency found")
      (fun e => e == Ev.callCancelSweep) (learn "rf" d) = true ∧
    (learn "rf" d).getLast? = some (Ev.exitProc 1) := by
  intro d hauth hfreq
  have hseek : freqSeek d.checkFreq 0 30 = ((List.range' 0 30).map Ev.callCheckFreq, false) :=
    freqSeek_none 30 d.checkFreq 0 (by intro j hj; simpa using hfreq j hj)
  have htr : learn "rf" d =
      Ev.callAuth :: Ev.callSweep :: (List.range' 0 30).map Ev.callCheckFreq ++
        [Ev.emitError "No RF frequency found", Ev.callCancelSweep, Ev.exitProc 1] := by
    simp [learn, hauth, signalPath_rf, learnRF, hseek]
  refine ⟨htr, ?_, ?_, ?_⟩ <;> rw [htr] <;> decide

/-- Claim C1, witness: the amended theorem instantiated on `d0`. -/
theorem c1_witness :
    learn "rf" d0 =
      Ev.callAuth :: Ev.callSweep :: (List.range' 0 30).map Ev.callCheckFreq ++
        [Ev.emitError "No RF frequency found", Ev.callCancelSweep, Ev.exitProc 1] ∧
    countEv Ev.callCancelSweep (learn "rf" d0) = 1 ∧
    beforeEv (fun e => e == Ev.emitError "No RF frequency found")
      (fun e => e == Ev.callCancelSweep) (learn "rf" d0) = true ∧
    (learn "rf" d0).getLast? = some (Ev.exitProc 1) :=
  c1_rf_cancel_after_timeout_error d0 rfl (by decide)

/-! ### Claim C2 — capture poll loop success and timeout -/

/-- Claim C2: in the capture poll loop, if the endpoint raises a recognized
not-ready condition on the first `N - 1` polls and returns a non-empty
payload on the `N`-th poll (`1 ≤ N ≤ 30`), the command performs exactly `N`
polls and succeeds with exactly that payload (hex-encoded, no exit); if the
endpoint raises a recognized not-ready condition on all 30 polls, the command
emits the timeout error with no payload and exits non-zero. -/
theorem c2_capture_poll_loop :
    (∀ (cd : Nat → PollResult) (N : Nat) (p : List Nat),
      1 ≤ N → N ≤ 30 →
      (∀ j, j < N - 1 → isNotReady (cd j) = true) →
      cd (N - 1) = PollResult.data p → p ≠ [] →
      learnIR cd =
        Ev.callEnterLearning :: ((List.range' 0 N).map Ev.callCheckData ++
          [Ev.emitCode (String.mk (hexEncode p))])) ∧
    (∀ cd : Nat → PollResult, (∀ j, j < 30 → isNotReady (cd j) = true) →
      learnIR cd =
        Ev.callEnterLearning :: ((List.range' 0 30).map Ev.callCheckData ++
          [Ev.emitError "IR learning timeout", Ev.exitProc 1])) := by
  constructor
  · intro cd N p h1 h30 hnr hd hp
    have hstep := captureEvs_success (N - 1) cd "IR learning timeout" 0 30 p
      (by intro j hj; simpa using hnr j hj) (by simpa using hd) hp (by omega)
    rw [show N - 1 + 1 = N by omega] at hstep
    simp only [learnIR, hstep]
  · intro cd h
    have hstep := captureEvs_timeout 30 cd "IR learning timeout" 0
      (by intro j hj; simpa using h j hj)
    simp only [learnIR, hstep]

/-- IR endpoint that is not ready twice, then yields the payload `de ad`. -/
def cd0 : Nat → PollResult :=
  fun i => if i < 2 then PollResult.storageError else PollResult.data [222, 173]

/-- Claim C2, witness: the success half of the loop theorem at `N = 3`. -/
theorem c2_witness :
    learnIR cd0 =
      Ev.callEnterLearning :: ((List.range' 0 3).map Ev.callCheckData ++
        [Ev.emitCode (String.mk (hexEncode [222, 173]))]) :=
  c2_capture_poll_loop.1 cd0 3 [222, 173] (by decide) (by decide) (by decide)
    (by decide) (by decide)

/-! ### Claim C4 — unrecognized errors abort the poll loop immediately -/

/-- Claim C4: only the two recognized transient conditions continue the poll
loop (first conjunct); any other error raised by the endpoint on any poll
aborts the whole command right there — exactly `k + 1` polls happen, the
remaining budget is unused, and the error message is propagated verbatim in
the error response before a non-zero exit (second conjunct). -/
theorem c4_unrecognized_error_aborts :
    (∀ (cd : Nat → PollResult) (msg : String) (i fuel : Nat),
      isNotReady (cd i) = true →
      captureEvs cd msg i (fuel + 1) = Ev.callCheckData i :: captureEvs cd msg (i + 1) fuel) ∧
    (∀ (cd : Nat → PollResult) (k : Nat) (m : String),
      k < 30 → (∀ j, j < k → isNotReady (cd j) = true) →
      cd k = PollResult.otherError m →
      learnIR cd =
        Ev.callEnterLearning :: ((List.range' 0 (k + 1)).map Ev.callCheckData ++
          [Ev.emitError m, Ev.exitProc 1])) := by
  constructor
  · intro cd msg i fuel h
    exact captureEvs_notReady cd msg i fuel h
  · intro cd k m hk hnr hd
    have hstep := captureEvs_abort k cd "IR learning timeout" 0 30 m
      (by intro j hj; simpa using hnr j hj) (by simpa using hd) hk
    simp only [learnIR, hstep]

/-- IR endpoint that is not ready once and then raises an unrecognized
exception. -/
def cd1 : Nat → PollResult :=
  fun i => if i = 0 then PollResult.readError else PollResult.otherError "unexpected device error"

/-- Claim C4, witness: the abort half of the theorem at `k = 1`. -/
theorem c4_witness :
    learnIR cd1 =
      Ev.callEnterLearning :: ((List.range' 0 2).map Ev.callCheckData ++
        [Ev.emitError "unexpected device error", Ev.exitProc 1]) :=
  (c4_unrecognized_error_aborts.2 cd1 1 "unexpected device error" (by decide)
    (by decide) (by decide))

/-! ### Claim C5 — hex encoding is lowercase and send-decode inverts it -/

/-- Decoding a digit produced by `hexDigit`. -/
lemma hexDigit_val_lower : ∀ n, n < 16 → hexDigitVal (hexDigit n) = some n := by decide

/-- Decoding the uppercase variant of a digit produced by `hexDigit`. -/
lemma hexDigit_val_upper : ∀ n, n < 16 → hexDigitVal ((hexDigit n).toUpper) = some n := by decide

/-- Hex digits are not ASCII whitespace. -/
lemma hexDigit_not_space : ∀ n, n < 16 → isHexSpace (hexDigit n) = false := by decide

/-- Uppercased hex digits are not ASCII whitespace. -/
lemma hexDigit_upper_not_space : ∀ n, n < 16 → isHexSpace ((hexDigit n).toUpper) = false := by decide

/-- A character agreeing with a produced hex digit up to letter case decodes
to its value and is not whitespace. -/
lemma hexDigitVal_of_variant {c : Char} {n : Nat} (hn : n < 16)
    (h : c = hexDigit n ∨ c = (hexDigit n).toUpper) :
    hexDigitVal c = some n ∧ isHexSpace c = false := by
  rcases h with rfl | rfl
  · exact ⟨hexDigit_val_lower n hn, hexDigit_not_space n hn⟩
  · exact ⟨hexDigit_val_upper n hn, hexDigit_upper_not_space n hn⟩

set_option maxRecDepth 4000 in
/-- Every character of one encoded byte lies in the lowercase hex alphabet.
-/
lemma byteHex_lowerHex : ∀ b, b < 256 → ∀ c ∈ byteHex b, isLowerHex c = true := by decide

/-- Core round trip: any letter-case variant of `hexEncode bs` pairs back to
exactly `bs`, and contains no whitespace for the `fromhex` filter to drop. -/
lemma hexPairs_caseVariant : ∀ (bs : List Nat) (s : List Char),
    (∀ b ∈ bs, b < 256) → caseVariantB s (hexEncode bs) = true →
    hexPairs s = some bs ∧ s.filter (fun c => !isHexSpace c) = s := by
  intro bs
  induction bs with
  | nil =>
    intro s _ hcv
    cases s with
    | nil => exact ⟨rfl, rfl⟩
    | cons c cs => simp [caseVariantB, hexEncode] at hcv
  | cons b bs ih =>
    intro s hb hcv
    have he : hexEncode (b :: bs) =
        hexDigit (b / 16) :: hexDigit (b % 16) :: hexEncode bs := rfl
    rw [he] at hcv
    match s with
    | [] => simp [caseVariantB] at hcv
    | [c1] => simp [caseVariantB] at hcv
    | c1 :: c2 :: s2 =>
      simp only [caseVariantB, Bool.and_eq_true, Bool.or_eq_true, beq_iff_eq] at hcv
      obtain ⟨h1, h2, hrest⟩ := hcv
      have hblt : b < 256 := hb b (by simp)
      have hv1 := hexDigitVal_of_variant (n := b / 16) (by omega) h1
      have hv2 := hexDigitVal_of_variant (n := b % 16) (by omega) h2
      have ihs := ih s2 (fun x hx => hb x (by simp [hx])) hrest
      constructor
      · rw [show hexPairs (c1 :: c2 :: s2) =
            (match hexDigitVal c1, hexDigitVal c2, hexPairs s2 with
              | some hi, some lo, some t => some ((16 * hi + lo) :: t)
              | _, _, _ => none) from rfl]
        rw [hv1.1, hv2.1, ihs.1]
        show some ((16 * (b / 16) + b % 16) :: bs) = some (b :: bs)
        rw [show 16 * (b / 16) + b % 16 = b by omega]
      · simp [hv1.2, hv2.2, ihs.2]

/-- Claim C5: the capture payload emitted by a successful learn command is
the payload bytes as lowercase hexadecimal text (first conjunct — the loop
emits `hexEncode`, whose characters all lie in `0-9a-f`), and for every byte
sequence, passing its hex encoding in any letter case to the `send` command's
decode step (`bytes.fromhex`) reproduces the original byte sequence. -/
theorem c5_hex_roundtrip :
    (∀ bs : List Nat, (∀ b ∈ bs, b < 256) → ∀ c ∈ hexEncode bs, isLowerHex c = true) ∧
    (∀ (bs : List Nat) (s : List Char), (∀ b ∈ bs, b < 256) →
      caseVariantB s (hexEncode bs) = true → hexDecode s = some bs) ∧
    (∀ (bs : List Nat) (s : List Char), (∀ b ∈ bs, b < 256) →
      caseVariantB s (hexEncode bs) = true → send_decode (String.mk s) = some bs) := by
  have hdec : ∀ (bs : List Nat) (s : List Char), (∀ b ∈ bs, b < 256) →
      caseVariantB s (hexEncode bs) = true → hexDecode s = some bs := by
    intro bs s hb hcv
    have h := hexPairs_caseVariant bs s hb hcv
    rw [hexDecode, h.2, h.1]
  refine ⟨?_, hdec, ?_⟩
  · intro bs hb c hc
    rw [hexEncode] at hc
    obtain ⟨l, hl, hcl⟩ := List.mem_flatten.1 hc
    obtain ⟨b, hbmem, rfl⟩ := List.mem_map.1 hl
    exact byteHex_lowerHex b (hb b hbmem) c hcl
  · intro bs s hb hcv
    exact hdec bs s hb hcv

/-- Claim C5, witness: the mixed-case text `AB0f` decodes to the bytes
`ab 0f` it encodes. -/
theorem c5_witness : hexDecode ['A', 'B', '0', 'f'] = some [171, 15] :=
  c5_hex_roundtrip.2.1 [171, 15] ['A', 'B', '0', 'f'] (by decide) (by decide)

/-! ### Claim C6 — the `test` command's two failure shapes -/

/-- Claim C6: a socket timeout during the handshake yields exactly
`online: false` with no error field; any other handshake exception yields
`online: false` plus the error field; the shapes never mix, and `test` exits
0 on every outcome. -/
theorem c6_test_timeout_isolation : ∀ m : String,
    test AuthOutcome.sockTimeout = (⟨false, none⟩, 0) ∧
    test (AuthOutcome.exc m) = (⟨false, some m⟩, 0) ∧
    test AuthOutcome.ok = (⟨true, none⟩, 0) ∧
    ∀ r : AuthOutcome, (test r).2 = 0 := by
  intro m
  refine ⟨rfl, rfl, rfl, ?_⟩
  intro r
  cases r <;> rfl

/-! ### Claim C9 — discover keeps exactly the authenticated devices -/

/-- Claim C9: the success output of `discover` contains exactly the entries
of the devices whose authentication succeeded, in order; devices failing
authentication are silently omitted, and the exit status stays 0. -/
theorem c9_discover_auth_filter : ∀ devs : List RawDevice,
    discover (Except.ok devs) =
      (DiscoverResp.ok ((devs.filter fun d => d.authOk).map mkEntry), 0) := by
  intro devs
  simp only [discover, Prod.mk.injEq, DiscoverResp.ok.injEq, and_true]
  induction devs with
  | nil => rfl
  | cons d ds ih =>
    cases hd : d.authOk <;>
      simp [List.filterMap_cons, List.filter_cons, hd, ih]

/-! ### Claim C10 — any non-`rf` signal class runs the infrared path -/

/-- Claim C10: four or more learn arguments are never a usage error and the
fourth is taken verbatim as the signal class; three arguments default it to
`"ir"`; any signal-class value whose lowercase form differs from `"rf"` —
not only `"ir"` — selects the infrared capture path of `learn`. -/
theorem c10_signal_class_dispatch :
    ∀ (host mac devtype st : String) (rest : List String) (d : DevBehavior),
    mainLearnArgs (host :: mac :: devtype :: st :: rest) = LearnArgs.run host mac devtype st ∧
    mainLearnArgs [host, mac, devtype] = LearnArgs.run host mac devtype "ir" ∧
    (lowerStr st ≠ "rf" → signalPath st = SignalPath.ir) ∧
    (d.auth = none → lowerStr st ≠ "rf" →
      learn st d = Ev.callAuth :: learnIR d.checkData) := by
  intro host mac devtype st rest d
  refine ⟨rfl, rfl, ?_, ?_⟩
  · intro h
    simp [signalPath, h]
  · intro hauth h
    simp [learn, hauth, signalPath, h]

/-- Claim C10, witness: the unrecognized signal class `"RADIO"` dispatches
and runs the infrared path. -/
theorem c10_witness :
    signalPath "RADIO" = SignalPath.ir ∧
    learn "RADIO" d0 = Ev.callAuth :: learnIR d0.checkData :=
  ⟨(c10_signal_class_dispatch "h" "m" "t" "RADIO" [] d0).2.2.1 (by decide),
    (c10_signal_class_dispatch "h" "m" "t" "RADIO" [] d0).2.2.2 rfl (by decide)⟩

/-! ### Claim C7 — `open` without a session spawns and trusts the spawn -/

/-- Claim C7: when the file exists and no automation session is resolvable,
`open` attempts a launch whose argument list includes the target document
path, and the spawn result alone decides the response: spawn success yields
`success: true` (with no reachability confirmation in the effect trace) and
spawn failure yields a failure response. -/
theorem c7_open_launch : ∀ (w : OpenWorld) (fp : String),
    os_path_exists w fp = true → w.hasUno = false →
    fp ∈ launch_cmd (some fp) ∧
    (w.spawnOk (launch_cmd (some fp)) = true →
      handle_open w fp = (CmdResp.ok,
        [OEff.checkExists fp, OEff.resolveSession, OEff.spawn (launch_cmd (some fp))])) ∧
    (w.spawnOk (launch_cmd (some fp)) = false →
      handle_open w fp = (CmdResp.fail "Failed to launch LibreOffice",
        [OEff.checkExists fp, OEff.resolveSession, OEff.spawn (launch_cmd (some fp))])) := by
  intro w fp hex huno
  have hfp : ¬ fp = "" := by
    intro h
    rw [h] at hex
    simp [os_path_exists] at hex
  refine ⟨?_, ?_, ?_⟩
  · simp [launch_cmd, hfp]
  · intro hs
    simp [handle_open, hex, huno, hs]
  · intro hs
    simp [handle_open, hex, huno, hs]

/-- A world with every file present, no UNO session, and successful spawns.
-/
def w0 : OpenWorld := ⟨fun _ => true, false, fun _ => true, Except.ok ()⟩

/-- Claim C7, witness: opening an existing document without a session spawns
LibreOffice with the document argument and reports success. -/
theorem c7_witness :
    "/tmp/deck.odp" ∈ launch_cmd (some "/tmp/deck.odp") ∧
    handle_open w0 "/tmp/deck.odp" = (CmdResp.ok,
      [OEff.checkExists "/tmp/deck.odp", OEff.resolveSession,
        OEff.spawn (launch_cmd (some "/tmp/deck.odp"))]) :=
  ⟨(c7_open_launch w0 "/tmp/deck.odp" (by decide) rfl).1,
    (c7_open_launch w0 "/tmp/deck.odp" (by decide) rfl).2.1 rfl⟩

/-! ### Claim C8 — `open` checks existence before any other effect -/

/-- Claim C8: when the target path does not exist, `open` responds with a
file-not-found failure and its effect trace holds nothing but the existence
check — no session resolution, no spawn, no load. -/
theorem c8_open_missing_file : ∀ (w : OpenWorld) (fp : String),
    os_path_exists w fp = false →
    handle_open w fp = (CmdResp.fail ("File not found: " ++ fp), [OEff.checkExists fp]) := by
  intro w fp h
  simp [handle_open, h]

/-- A world where no file exists. -/
def w1 : OpenWorld := ⟨fun _ => false, true, fun _ => true, Except.ok ()⟩

/-- Claim C8, witness: a missing path gets the file-not-found failure with
no further effects. -/
theorem c8_witness :
    handle_open w1 "/missing.odp" =
      (CmdResp.fail ("File not found: " ++ "/missing.odp"),
        [OEff.checkExists "/missing.odp"]) :=
  c8_open_missing_file w1 "/missing.odp" (by decide)

/-! ### Claim C3 — `get_status` and best-effort sub-reads -/

/-- Session state in which every sub-field read fails: the page-count read,
the running check, the position read and the paused read all raise. -/
def dBad : Desk :=
  ⟨Except.ok (some ⟨Except.error "pages unavailable",
    Except.ok (some ⟨Except.error "running check failed",
      Except.ok (some ⟨Except.error "no index", Except.error "no paused"⟩)⟩)⟩)⟩

/-- Claim C3, counterexample: with a session handle obtained but every
sub-field read raising, `get_status` does NOT answer success — the exception
of the unguarded `isRunning` call reaches the outer handler, which responds
with a failure. -/
theorem c3_counterexample :
    statusIsSuccess (get_status dBad) = false ∧
    get_status dBad = StatusResp.failure "running check failed" :=
  ⟨rfl, rfl⟩

/-- Claim C3 (amended): for every `get_status` command for which a session
handle was obtained, if the unguarded session calls that get executed —
the document fetch and, when a presentation is running, the running check,
the position read and the paused read — return rather than raise, the
response has success true with a data record, even when the page-count read,
the presentation fetch and the controller fetch fail; in particular a failing
page-count read leaves `total_slides` null rather than failing the response.
An exception from one of the unguarded calls, however, turns the response
into a failure (see the counterexample). -/
theorem c3_get_status_best_effort : ∀ d : Desk, bareCallsOk d = true →
    ∃ s, get_status d = StatusResp.success s ∧
      ∀ doc e, d.currentComponent = Except.ok (some doc) →
        doc.pageCount = Except.error e → s.total_slides = none := by
  intro d h
  obtain ⟨cc⟩ := d
  have htot : ∀ (doc : DocO) (t : StatusData), t.total_slides = totalOf doc →
      ∀ doc' e, (Except.ok (some doc) : Except String (Option DocO)) = Except.ok (some doc') →
        doc'.pageCount = Except.error e → t.total_slides = none := by
    intro doc t ht doc' e hcc hpc
    have : doc = doc' := by
      injection hcc with h1
      injection h1
    subst this
    rw [ht, totalOf, hpc]
  cases cc with
  | error e => simp [bareCallsOk] at h
  | ok docOpt =>
    cases docOpt with
    | none =>
      refine ⟨⟨false, none, none, false⟩, rfl, ?_⟩
      intro doc e hcc
      simp at hcc
    | some doc =>
      cases hpres : doc.presentation with
      | error e1 =>
        refine ⟨⟨false, none, totalOf doc, false⟩, ?_, htot doc _ rfl⟩
        simp [get_status, get_presentation, hpres]
      | ok presOpt =>
        cases presOpt with
        | none =>
          refine ⟨⟨false, none, totalOf doc, false⟩, ?_, htot doc _ rfl⟩
          simp [get_status, get_presentation, hpres]
        | some p =>
          cases hrun : p.running with
          | error e1 =>
            rw [show bareCallsOk ⟨Except.ok (some doc)⟩ =
                (match get_presentation ⟨Except.ok (some doc)⟩ with
                  | none => true
                  | some p =>
                    match p.running with
                    | .error _ => false
                    | .ok false => true
                    | .ok true =>
                      match get_slideshow_controller ⟨Except.ok (some doc)⟩ with
                      | none => true
                      | some c =>
                        (match c.slideIndex with
                          | .ok _ => true
                          | .error _ => false) &&
                        (match c.paused with
                          | .ok _ => true
                          | .error _ => false)) from rfl] at h
            simp [get_presentation, hpres, hrun] at h
          | ok b =>
            cases b with
            | false =>
              refine ⟨⟨false, none, totalOf doc, false⟩, ?_, htot doc _ rfl⟩
              simp [get_status, get_presentation, hpres, hrun]
            | true =>
              cases hctrl : p.controller with
              | error e1 =>
                refine ⟨⟨true, none, totalOf doc, false⟩, ?_, htot doc _ rfl⟩
                simp [get_status, get_presentation, get_slideshow_controller,
                  hpres, hrun, hctrl]
              | ok ctrlOpt =>
                cases ctrlOpt with
                | none =>
                  refine ⟨⟨true, none, totalOf doc, false⟩, ?_, htot doc _ rfl⟩
                  simp [get_status, get_presentation, get_slideshow_controller,
                    hpres, hrun, hctrl]
                | some c =>
                  have hb : bareCallsOk ⟨Except.ok (some doc)⟩ =
                      ((match c.slideIndex with
                        | .ok _ => true
                        | .error _ => false) &&
                      (match c.paused with
                        | .ok _ => true
                        | .error _ => false)) := by
                    simp [bareCallsOk, get_presentation, get_slideshow_controller,
                      hpres, hrun, hctrl]
                  rw [hb] at h
                  cases hidx : c.slideIndex with
                  | error e1 => simp [hidx] at h
                  | ok idx =>
                    cases hpaused : c.paused with
                    | error e1 => simp [hidx, hpaused] at h
                    | ok pb =>
                      refine ⟨⟨true, some (idx + 1), totalOf doc, pb⟩, ?_, htot doc _ rfl⟩
                      simp [get_status, get_presentation, get_slideshow_controller,
                        hpres, hrun, hctrl, hidx, hpaused]

/-- Session state where only the page-count read fails and no presentation
object is available. -/
def dW : Desk := ⟨Except.ok (some ⟨Except.error "pages unavailable", Except.ok none⟩)⟩

/-- Claim C3, witness: with the page-count read failing and the presentation
fetch yielding nothing, the response is still a success and `total_slides`
is null. -/
theorem c3_witness :
    ∃ s, get_status dW = StatusResp.success s ∧
      ∀ doc e, dW.currentComponent = Except.ok (some doc) →
        doc.pageCount = Except.error e → s.total_slides = none :=
  c3_get_status_best_effort dW rfl

end SermonHelper
